import Mathlib

/-!
Verification of the fetchless HTTP caching library (src/Fetchless.ts,
src/advanced.ts, src/index.ts) as a shallow embedding.

The client is modelled as a pure state machine: `FetchlessState` holds the
fields of the `Fetchless` class, each method becomes a function on that state,
and the external transport (axios) is modelled by passing in the outcome
(`Except E (Response α)`) that the network call would have produced. Time
(`Date.now()`) is passed explicitly as a `Nat`. The stale-while-revalidate
background refresh is modelled as a spawned task value (`bgTask`) whose later
completion is the function `refreshCache` applied to its own transport outcome.

The Entry Store backing `this.cache` is the external `lru-cache` dependency,
whose source is not part of this repository; per the specification (§4.2) it is
modelled as a keyed container with `get`/`set`/`clear`/`size`, with expiry
derived via `isExpired` exactly as Fetchless.ts computes it.
-/

namespace Fetchless

/-- Cache strategies (src/types.ts, `CacheStrategy`). -/
inductive CacheStrategy : Type where
  | cacheFirst
  | networkFirst
  | staleWhileRevalidate
  deriving DecidableEq, Repr

/-- The observable part of an axios response: `data`, `status`, `statusText`.
The remaining axios fields (headers, config, request) are never read by
Fetchless.ts after construction and are not modelled. -/
structure Response (α : Type) : Type where
  data : α
  status : Nat
  statusText : String
  deriving DecidableEq, Repr

/-- A cache entry as built by `Fetchless.cacheResponse`:
`{ response, timestamp: Date.now(), key }`. -/
structure CacheEntry (α : Type) : Type where
  response : Response α
  timestamp : Nat
  key : String
  deriving DecidableEq, Repr

/-- The Entry Store contents: a keyed container `cache key → entry`. -/
abbrev Store (α : Type) : Type := List (String × CacheEntry α)

/-- Modelled from the spec: Entry Store `get(key) → entry|absent` (§4.2);
the backing `lru-cache` dependency is external to this repository. -/
def storeGet (c : Store α) (k : String) : Option (CacheEntry α) :=
  (c.find? (fun p => p.1 == k)).map (fun p => p.2)

/-- Modelled from the spec: Entry Store `set(key, entry)` (§4.2), replacing any
previous entry for the key. -/
def storeSet (c : Store α) (k : String) (e : CacheEntry α) : Store α :=
  (k, e) :: c.filter (fun p => p.1 != k)

/-- History Store contents: URL → time-ordered snapshot list (`historyCache`). -/
abbrev History (α : Type) : Type := List (String × List (Nat × Response α))

/-- `this.historyCache.get(url) || []`. -/
def histGet (h : History α) (url : String) : List (Nat × Response α) :=
  ((h.find? (fun p => p.1 == url)).map (fun p => p.2)).getD []

/-- `this.historyCache.set(url, history)`. -/
def histSet (h : History α) (url : String) (l : List (Nat × Response α)) : History α :=
  (url, l) :: h.filter (fun p => p.1 != url)

/-- `lastSuccessfulResponses`: URL → most recent successful response. -/
abbrev RespMap (α : Type) : Type := List (String × Response α)

def respGet (m : RespMap α) (url : String) : Option (Response α) :=
  (m.find? (fun p => p.1 == url)).map (fun p => p.2)

def respSet (m : RespMap α) (url : String) (r : Response α) : RespMap α :=
  (url, r) :: m.filter (fun p => p.1 != url)

/-- Constructor-time configuration, `Partial<CacheConfig>` (src/types.ts):
every recognized option is optional at the call site. -/
structure CacheConfig : Type where
  strategy : Option CacheStrategy
  maxAge : Option Nat
  maxSize : Option Nat
  enableTimeTravel : Option Bool
  historyRetention : Option Nat
  enableIntelligencePanel : Option Bool
  deriving DecidableEq, Repr

/-- `createClient()` with no argument: every option absent. -/
def CacheConfig.empty : CacheConfig :=
  ⟨none, none, none, none, none, none⟩

/-- JS `config?.x || default` on a number-valued option: both an absent option
and an explicit 0 are falsy and yield the default. -/
def orDefaultNat (o : Option Nat) (d : Nat) : Nat :=
  match o with
  | some n => if n = 0 then d else n
  | none => d

/-- The mutable fields of the `Fetchless` class together with its resolved
configuration (`this.config`), after the constructor has applied defaults. -/
structure FetchlessState (α : Type) : Type where
  cache : Store α
  hits : Nat
  misses : Nat
  historyCache : History α
  frozenUrls : List String
  lastSuccessfulResponses : RespMap α
  freezeCache : Store α
  requestLog : List (String × Nat)
  strategy : CacheStrategy
  maxAge : Nat
  maxSize : Nat
  enableTimeTravel : Bool
  historyRetention : Nat
  enableIntelligencePanel : Bool
  deriving DecidableEq, Repr

/-- The `Fetchless` constructor: applies JS `||` defaults to the partial
config and starts with empty stores and zeroed counters. `frozenUrls` starts
empty and — notably — no method of the class ever inserts into it. -/
def mkFetchless (config : CacheConfig) : FetchlessState α :=
  { cache := []
    hits := 0
    misses := 0
    historyCache := []
    frozenUrls := []
    lastSuccessfulResponses := []
    freezeCache := []
    requestLog := []
    strategy := config.strategy.getD CacheStrategy.cacheFirst
    maxAge := orDefaultNat config.maxAge (5 * 60 * 1000)
    maxSize := orDefaultNat config.maxSize 100
    enableTimeTravel := config.enableTimeTravel.getD false
    historyRetention := orDefaultNat config.historyRetention (7 * 24 * 60 * 60 * 1000)
    enableIntelligencePanel := config.enableIntelligencePanel.getD false }

/-- Errors surfaced by `get`: transport errors propagated from axios, plus the
errors thrown by `getHistoricalData` (time travel disabled / invalid date /
no history, the latter being the spec's `NoHistoryError`). -/
inductive GetError (E : Type) : Type where
  | transport (e : E)
  | timeTravelDisabled
  | invalidDate
  | noHistory (url : String)
  deriving DecidableEq, Repr

/-- Auto-Fix context (src/types.ts `AutoFixContext`). -/
structure AutoFixContext (α : Type) : Type where
  lastSuccessfulResponse : Option (Response α)
  responseHistory : List (Response α)
  url : String

/-- A caller-supplied substitution function. `Except.error` models the
function itself throwing; `Except.ok none` models returning null/undefined. -/
def AutoFixFunction (α E : Type) : Type :=
  E → AutoFixContext α → Except Unit (Option α)

/-- Per-call options (`ExtendedAxiosRequestConfig & FetchlessOptions`):
`strategy`, `autoFix`, `at`, plus the parts of the pass-through axios config
that `generateCacheKey` reads (`params`, `headers.Authorization`). The `at`
ISO string is modelled as its parsed timestamp, `some none` standing for a
present but unparseable date (`NaN`). -/
structure GetConfig (α E : Type) : Type where
  strategy : Option CacheStrategy
  autoFix : Option (AutoFixFunction α E)
  atTime : Option (Option Nat)
  params : Option (List (String × String))
  authorization : Option String

/-- `Fetchless.generateCacheKey`: base URL; if params are present, append them
with keys sorted lexicographically as `?k=v&...`; if an Authorization header
is present (and nonempty — JS truthiness), append `|auth=<value>`.
`URLSearchParams` percent-encoding, a deterministic per-pair transformation,
is not modelled. -/
def generateCacheKey (url : String) (config : Option (GetConfig α E)) : String :=
  match config with
  | none => url
  | some cfg =>
    let key := url
    let key :=
      match cfg.params with
      | none => key
      | some ps =>
        let sortedKeys := List.insertionSort (fun a b => a ≤ b) (ps.map Prod.fst)
        let paramsString :=
          String.intercalate "&"
            (sortedKeys.map (fun k => k ++ "=" ++ ((List.lookup k ps).getD "")))
        if paramsString = "" then key else key ++ "?" ++ paramsString
    match cfg.authorization with
    | some auth => if auth = "" then key else key ++ "|auth=" ++ auth
    | none => key

/-- `Fetchless.isExpired`: `now - entry.timestamp > (this.config.maxAge || 5min)`. -/
def isExpired (s : FetchlessState α) (now : Nat) (entry : CacheEntry α) : Bool :=
  let maxAge := if s.maxAge = 0 then 5 * 60 * 1000 else s.maxAge
  decide (now - entry.timestamp > maxAge)

/-- `Fetchless.cacheResponse`: store `{ response, timestamp: now, key }`. -/
def cacheResponse (s : FetchlessState α) (key : String) (response : Response α)
    (now : Nat) : FetchlessState α :=
  { s with cache := storeSet s.cache key ⟨response, now, key⟩ }

/-- `Fetchless.storeInHistory`: append a snapshot for the URL when time travel
is enabled, else do nothing. -/
def storeInHistory (s : FetchlessState α) (url : String) (response : Response α)
    (now : Nat) : FetchlessState α :=
  if s.enableTimeTravel then
    { s with historyCache :=
        histSet s.historyCache url (histGet s.historyCache url ++ [(now, response)]) }
  else s

/-- The success bookkeeping shared by all three strategies and `refreshCache`:
cache the response, record it as last successful for the URL, and append it to
history when time travel is enabled. -/
def recordSuccess (s : FetchlessState α) (cacheKey url : String)
    (response : Response α) (now : Nat) : FetchlessState α :=
  let s1 := cacheResponse s cacheKey response now
  let s2 := { s1 with
    lastSuccessfulResponses := respSet s1.lastSuccessfulResponses url response }
  if s2.enableTimeTravel then storeInHistory s2 url response now else s2

/-- The context built by `Fetchless.tryAutoFix`. -/
def mkAutoFixContext (s : FetchlessState α) (url : String) : AutoFixContext α :=
  { lastSuccessfulResponse := respGet s.lastSuccessfulResponses url
    responseHistory := (histGet s.historyCache url).map (fun p => p.2)
    url := url }

/-- `Fetchless.tryAutoFix`: call the substitution function with the error and
context; a non-null value is wrapped as a synthetic `200 / OK (Auto-Fixed)`
response; null/undefined and a throwing fixer both yield no substitute. -/
def tryAutoFix (s : FetchlessState α) (error : E) (url : String)
    (autoFixFunction : AutoFixFunction α E) : Option (Response α) :=
  match autoFixFunction error (mkAutoFixContext s url) with
  | Except.error _ => none
  | Except.ok none => none
  | Except.ok (some fixedData) =>
    some { data := fixedData, status := 200, statusText := "OK (Auto-Fixed)" }

/-- Outcome of running one strategy: the value or error delivered to the
caller, the state afterwards, how many foreground transport calls were made,
and the background refresh task spawned, if any (cache key, url). -/
structure StratResult (α E : Type) : Type where
  result : Except E (Response α)
  state : FetchlessState α
  transportCalls : Nat
  bgTask : Option (String × String)

/-- The shared network path of `cacheFirstStrategy` and the cache-miss branch
of `staleWhileRevalidateStrategy`: await the transport; on success record it;
on failure try Auto-Fix if configured, else propagate the error. -/
def networkFetchAndStore (s : FetchlessState α) (cacheKey url : String) (now : Nat)
    (tr : Except E (Response α)) (autoFix : Option (AutoFixFunction α E)) :
    StratResult α E :=
  match tr with
  | Except.ok response =>
    { result := Except.ok response
      state := recordSuccess s cacheKey url response now
      transportCalls := 1
      bgTask := none }
  | Except.error e =>
    match autoFix.bind (fun f => tryAutoFix s e url f) with
    | some fixedResponse =>
      { result := Except.ok fixedResponse, state := s, transportCalls := 1, bgTask := none }
    | none =>
      { result := Except.error e, state := s, transportCalls := 1, bgTask := none }

/-- `Fetchless.cacheFirstStrategy`. -/
def cacheFirstStrategy (s : FetchlessState α) (cacheKey url : String) (now : Nat)
    (tr : Except E (Response α)) (autoFix : Option (AutoFixFunction α E)) :
    StratResult α E :=
  match storeGet s.cache cacheKey with
  | some cached =>
    if isExpired s now cached = false then
      { result := Except.ok cached.response
        state := { s with hits := s.hits + 1 }
        transportCalls := 0
        bgTask := none }
    else
      networkFetchAndStore { s with misses := s.misses + 1 } cacheKey url now tr autoFix
  | none =>
    networkFetchAndStore { s with misses := s.misses + 1 } cacheKey url now tr autoFix

/-- `Fetchless.networkFirstStrategy`: always fetch; on success record and
return (no counter change); on failure try Auto-Fix first, then fall back to
any cached entry (counted as a hit, expiry ignored), else count a miss and
propagate. -/
def networkFirstStrategy (s : FetchlessState α) (cacheKey url : String) (now : Nat)
    (tr : Except E (Response α)) (autoFix : Option (AutoFixFunction α E)) :
    StratResult α E :=
  match tr with
  | Except.ok response =>
    { result := Except.ok response
      state := recordSuccess s cacheKey url response now
      transportCalls := 1
      bgTask := none }
  | Except.error e =>
    match autoFix.bind (fun f => tryAutoFix s e url f) with
    | some fixedResponse =>
      { result := Except.ok fixedResponse, state := s, transportCalls := 1, bgTask := none }
    | none =>
      match storeGet s.cache cacheKey with
      | some cached =>
        { result := Except.ok cached.response
          state := { s with hits := s.hits + 1 }
          transportCalls := 1
          bgTask := none }
      | none =>
        { result := Except.error e
          state := { s with misses := s.misses + 1 }
          transportCalls := 1
          bgTask := none }

/-- `Fetchless.staleWhileRevalidateStrategy`: any cached entry (stale or not)
is returned immediately as a hit, spawning a background refresh if expired;
with no entry it behaves like the cache-first miss path. -/
def staleWhileRevalidateStrategy (s : FetchlessState α) (cacheKey url : String)
    (now : Nat) (tr : Except E (Response α)) (autoFix : Option (AutoFixFunction α E)) :
    StratResult α E :=
  match storeGet s.cache cacheKey with
  | some cached =>
    { result := Except.ok cached.response
      state := { s with hits := s.hits + 1 }
      transportCalls := 0
      bgTask := if isExpired s now cached then some (cacheKey, url) else none }
  | none =>
    networkFetchAndStore { s with misses := s.misses + 1 } cacheKey url now tr autoFix

/-- `Fetchless.refreshCache`, the body of the spawned background task: one
transport call; on success record it, on failure only log — the error is
swallowed and no caller sees it. Returns the new state and the number of
transport calls the task made (always 1). -/
def refreshCache (s : FetchlessState α) (cacheKey url : String) (now : Nat)
    (tr : Except E (Response α)) : FetchlessState α × Nat :=
  match tr with
  | Except.ok response => (recordSuccess s cacheKey url response now, 1)
  | Except.error _ => (s, 1)

/-- `Fetchless.handleRequest`: dispatch on the per-call strategy override or
the instance default. -/
def handleRequest (s : FetchlessState α) (url : String)
    (config : Option (GetConfig α E)) (now : Nat) (tr : Except E (Response α)) :
    StratResult α E :=
  let strategy := (config.bind (fun c => c.strategy)).getD s.strategy
  let cacheKey := generateCacheKey url config
  match strategy with
  | CacheStrategy.networkFirst =>
    networkFirstStrategy s cacheKey url now tr (config.bind (fun c => c.autoFix))
  | CacheStrategy.staleWhileRevalidate =>
    staleWhileRevalidateStrategy s cacheKey url now tr (config.bind (fun c => c.autoFix))
  | CacheStrategy.cacheFirst =>
    cacheFirstStrategy s cacheKey url now tr (config.bind (fun c => c.autoFix))

/-- The scan loop of `Fetchless.getHistoricalData`: keep the snapshot with the
smallest absolute distance to the target, strict comparison, so the
earliest-appended candidate wins ties. -/
def closestEntry (target : Nat) :
    (Nat × Response α) → List (Nat × Response α) → (Nat × Response α)
  | best, [] => best
  | best, e :: rest =>
    if ((target : Int) - (e.1 : Int)).natAbs < ((target : Int) - (best.1 : Int)).natAbs then
      closestEntry target e rest
    else
      closestEntry target best rest

/-- `Fetchless.getHistoricalData`: throws when time travel is disabled, when
the date fails to parse, or when no snapshots exist for the URL; otherwise
resolves the closest snapshot. -/
def getHistoricalData (s : FetchlessState α) (url : String) (atTime : Option Nat) :
    Except (GetError E) (Response α) :=
  if s.enableTimeTravel = false then
    Except.error GetError.timeTravelDisabled
  else
    match atTime with
    | none => Except.error GetError.invalidDate
    | some targetDate =>
      match histGet s.historyCache url with
      | [] => Except.error (GetError.noHistory url)
      | e :: rest => Except.ok (closestEntry targetDate e rest).2

/-- Outcome of the public `get`: like `StratResult` but with the full error
type, since `get` can also fail in the time-travel path. -/
structure GetResult (α E : Type) : Type where
  result : Except (GetError E) (Response α)
  state : FetchlessState α
  transportCalls : Nat
  bgTask : Option (String × String)

def StratResult.toGetResult (r : StratResult α E) : GetResult α E :=
  { result := r.result.mapError GetError.transport
    state := r.state
    transportCalls := r.transportCalls
    bgTask := r.bgTask }

/-- The intelligence logging block of `Fetchless.get`: append (url, now) when
the panel is enabled. (Component provenance from stack-trace inspection is an
unmodelled best-effort string.) -/
def logIntelligence (s : FetchlessState α) (url : String) (now : Nat) :
    FetchlessState α :=
  if s.enableIntelligencePanel then
    { s with requestLog := s.requestLog ++ [(url, now)] }
  else s

/-- The body of `Fetchless.get` after the frozen-URL block: time-travel reads
happen only when `at` is present AND time travel is enabled; otherwise the
request is logged and dispatched to the strategy engine. -/
def getCore (s : FetchlessState α) (url : String) (config : Option (GetConfig α E))
    (now : Nat) (tr : Except E (Response α)) : GetResult α E :=
  match config.bind (fun c => c.atTime) with
  | some parsedAt =>
    if s.enableTimeTravel then
      { result := getHistoricalData s url parsedAt
        state := s
        transportCalls := 0
        bgTask := none }
    else
      (handleRequest (logIntelligence s url now) url config now tr).toGetResult
  | none =>
    (handleRequest (logIntelligence s url now) url config now tr).toGetResult

/-- `Fetchless.get`: the frozen-URL check consults `frozenUrls` (which nothing
ever populates) and, when it fires with a cached value, returns that Entry
Store value as a hit; in every other case the call proceeds normally. -/
def get (s : FetchlessState α) (url : String) (config : Option (GetConfig α E))
    (now : Nat) (tr : Except E (Response α)) : GetResult α E :=
  if s.frozenUrls.contains url then
    match storeGet s.cache (generateCacheKey url config) with
    | some cached =>
      { result := Except.ok cached.response
        state := { s with hits := s.hits + 1 }
        transportCalls := 0
        bgTask := none }
    | none => getCore s url config now tr
  else getCore s url config now tr

/-- `getStats()` report (src/types.ts `CacheStats`); the JS float division for
the hit ratio is modelled exactly over the rationals. -/
structure CacheStats : Type where
  hits : Nat
  misses : Nat
  ratio : Rat
  size : Nat
  deriving DecidableEq, Repr

/-- `Fetchless.getStats`: size and ratio are recomputed lazily at read time. -/
def getStats (s : FetchlessState α) : CacheStats :=
  { hits := s.hits
    misses := s.misses
    ratio :=
      if s.hits + s.misses > 0 then (s.hits : Rat) / ((s.hits : Rat) + (s.misses : Rat))
      else 0
    size := s.cache.length }

/-- `Fetchless.clearCache`: clears the Entry Store and zeroes the stored
`stats.size` field (which `getStats` recomputes anyway); nothing else. -/
def clearCache (s : FetchlessState α) : FetchlessState α :=
  { s with cache := [] }

/-- `Fetchless.freeze`: if the Entry Store has a value under the raw URL as
key, snapshot it into `freezeCache`; otherwise warn and do nothing. Note that
`frozenUrls` is not touched. -/
def freeze (s : FetchlessState α) (url : String) : FetchlessState α :=
  match storeGet s.cache url with
  | some cachedData => { s with freezeCache := storeSet s.freezeCache url cachedData }
  | none => s

/-- `Fetchless.unfreeze`: drop the `freezeCache` entry for the URL. -/
def unfreeze (s : FetchlessState α) (url : String) : FetchlessState α :=
  { s with freezeCache := s.freezeCache.filter (fun p => p.1 != url) }

/-- `Fetchless.createClient`: process-wide singleton. The static `instance`
slot is passed and returned explicitly; the configuration is used only when
the slot is empty. -/
def createClient (slot : Option (FetchlessState α)) (config : CacheConfig) :
    FetchlessState α × Option (FetchlessState α) :=
  match slot with
  | none => (mkFetchless config, some (mkFetchless config))
  | some inst => (inst, some inst)

/-- src/index.ts module initialization: `const defaultClient =
Fetchless.createClient()` evaluated against the empty singleton slot; the
module helpers `get/post/put/del/clearCache/getStats` all delegate to this
instance. -/
def indexModuleInit (α : Type) : FetchlessState α × Option (FetchlessState α) :=
  createClient none CacheConfig.empty

/-- The shared default client held by src/index.ts. -/
def defaultClient (α : Type) : FetchlessState α :=
  (indexModuleInit α).1

/-- `AdvancedFetchless.generateDedupeCacheKey`: url plus the JSON-serialized
params (modelled as an opaque string), under a `dedupe:` prefix. -/
def generateDedupeCacheKey (url : String) (paramsJson : Option String) : String :=
  "dedupe:" ++ (url ++ paramsJson.getD "")

/-- The deduplication layer of `AdvancedFetchless.get`: the pending map
(`pendingRequests`, key → in-flight operation id), a fresh-operation counter,
and the number of underlying request executions started so far. -/
structure DedupState : Type where
  pending : List (String × Nat)
  nextOp : Nat
  transportCalls : Nat
  deriving DecidableEq, Repr

/-- A caller entering `AdvancedFetchless.get` with dedup enabled: an existing
pending operation for the key is joined as-is; otherwise a new operation is
started (one underlying execution) and registered as pending. Returns the
operation the caller is bound to. -/
def dedupArrive (s : DedupState) (key : String) : Nat × DedupState :=
  match List.lookup key s.pending with
  | some op => (op, s)
  | none =>
    (s.nextOp,
      { pending := (key, s.nextOp) :: s.pending
        nextOp := s.nextOp + 1
        transportCalls := s.transportCalls + 1 })

/-- Completion of the in-flight operation for a key: the `finally` block
deletes the pending registration whether the outcome was a success or a
failure. -/
def dedupComplete (s : DedupState) (key : String)
    (_outcome : Except E (Response α)) : DedupState :=
  { s with pending := s.pending.filter (fun p => p.1 != key) }

/-- `m` callers arriving for the same key, in order, with no intervening
completion (all before the underlying call finishes). -/
def dedupArriveMany (s : DedupState) (key : String) : Nat → List Nat × DedupState
  | 0 => ([], s)
  | n + 1 =>
    let r1 := dedupArrive s key
    let r2 := dedupArriveMany r1.2 key n
    (r1.1 :: r2.1, r2.2)

end Fetchless

deriving instance DecidableEq for Except

namespace Fetchless

variable {α E : Type}

/-! Sample data used by the concrete witnesses and counterexamples. -/

/-- A plain successful response carrying `n`. -/
def respOK (n : Nat) : Response Nat :=
  ⟨n, 200, "OK"⟩

/-- A substitution function that always repairs to the value 42. -/
def fix42 : AutoFixFunction Nat Unit :=
  fun _ _ => Except.ok (some 42)

/-- A client configured with `strategy: cache-first, maxAge: 5000`. -/
def clientCF5000 : FetchlessState Nat :=
  mkFetchless { CacheConfig.empty with
    strategy := some CacheStrategy.cacheFirst, maxAge := some 5000 }

/-- A default-config client whose Entry Store holds `respOK 1` under key "k",
stored at time 0. -/
def cachedK1 : FetchlessState Nat :=
  { mkFetchless CacheConfig.empty with cache := [("k", ⟨respOK 1, 0, "k"⟩)] }

/-- A `maxAge: 5000` client whose Entry Store holds `respOK 1` under key "k",
stored at time 0 (expired at any time past 5000). -/
def swrClientK1 : FetchlessState Nat :=
  { mkFetchless { CacheConfig.empty with maxAge := some 5000 } with
    cache := [("k", ⟨respOK 1, 0, "k"⟩)] }

/-- A default-config client that has already recorded one hit and one miss. -/
def countersOneOne : FetchlessState Nat :=
  { mkFetchless CacheConfig.empty with hits := 1, misses := 1 }

/-- A per-call config asking for a time-travel read at timestamp 1000. -/
def atCfg1000 : GetConfig Nat Unit :=
  ⟨none, none, some (some 1000), none, none⟩

/-! General helper lemmas shared by the claim proofs. -/

/-- Reading back the key just written into the Entry Store. -/
theorem storeGet_storeSet (c : Store α) (k : String) (e : CacheEntry α) :
    storeGet (storeSet c k e) k = some e := by
  simp [storeGet, storeSet, List.find?]

/-- `recordSuccess` writes exactly the fresh entry into the Entry Store. -/
theorem recordSuccess_cache (s : FetchlessState α) (k u : String) (r : Response α) (now : Nat) :
    (recordSuccess s k u r now).cache = storeSet s.cache k ⟨r, now, k⟩ := by
  simp only [recordSuccess, cacheResponse, storeInHistory]
  split <;> rfl

/-- Joining a pending operation leaves the dedup state untouched, any number
of times. -/
theorem dedupArriveMany_of_pending (key : String) (op : Nat) :
    ∀ (n : Nat) (t : DedupState), List.lookup key t.pending = some op →
      dedupArriveMany t key n = (List.replicate n op, t) := by
  intro n
  induction n with
  | zero => intro t _; rfl
  | succ k ih =>
    intro t h
    simp [dedupArriveMany, dedupArrive, h, ih t h, List.replicate]

/-- After filtering a key out of an association list, it cannot be looked up. -/
theorem lookup_filter_self (key : String) (l : List (String × Nat)) :
    List.lookup key (l.filter (fun p => p.1 != key)) = none := by
  induction l with
  | nil => rfl
  | cons p t ih =>
    by_cases h : p.1 = key
    · simp [List.filter, h, ih]
    · simp only [List.filter]
      have hb : (p.1 != key) = true := by simp [h]
      rw [hb]
      simp only [List.lookup]
      have : (key == p.1) = false := by simp [Ne.symm h]
      rw [this]
      exact ih

/-- A common prefix of equal string concatenations can be cancelled. -/
theorem string_append_cancel_left {s t₁ t₂ : String} (h : s ++ t₁ = s ++ t₂) : t₁ = t₂ := by
  have hd : s.data ++ t₁.data = s.data ++ t₂.data := by
    have hc := congrArg String.data h
    simpa [String.data_append] using hc
  exact String.ext (List.append_cancel_left hd)

/-- Association-list lookup agrees across permutations with distinct keys. -/
theorem lookup_eq_of_perm {β : Type} (k : String) {l₁ l₂ : List (String × β)}
    (hp : l₁.Perm l₂) (hnd : (l₁.map Prod.fst).Nodup) :
    List.lookup k l₁ = List.lookup k l₂ := by
  induction hp with
  | nil => rfl
  | cons x p ih =>
    simp only [List.map, List.nodup_cons] at hnd
    simp only [List.lookup]
    cases h : (k == x.1) with
    | true => rfl
    | false => exact ih hnd.2
  | swap x y l =>
    simp only [List.map, List.nodup_cons, List.mem_cons] at hnd
    have hxy : y.1 ≠ x.1 := fun h => hnd.1 (Or.inl h)
    simp only [List.lookup]
    by_cases h1 : k = y.1 <;> by_cases h2 : k = x.1
    · exact absurd (h1 ▸ h2) hxy
    · have b1 : (k == y.1) = true := by simp [h1]
      have b2 : (k == x.1) = false := by simp [h2]
      rw [b1, b2]
    · have b1 : (k == y.1) = false := by simp [h1]
      have b2 : (k == x.1) = true := by simp [h2]
      rw [b1, b2]
    · have b1 : (k == y.1) = false := by simp [h1]
      have b2 : (k == x.1) = false := by simp [h2]
      rw [b1, b2]
  | trans p₁ p₂ ih₁ ih₂ =>
    exact (ih₁ hnd).trans (ih₂ (((p₁.map Prod.fst).nodup_iff).mp hnd))

/-- Sorting by string order is invariant under permutation of the input. -/
theorem insertionSort_eq_of_perm {l₁ l₂ : List String} (h : l₁.Perm l₂) :
    List.insertionSort (fun a b => a ≤ b) l₁ = List.insertionSort (fun a b => a ≤ b) l₂ := by
  haveI : IsAntisymm String (fun a b => a ≤ b) := ⟨fun _ _ h₁ h₂ => le_antisymm h₁ h₂⟩
  exact List.eq_of_perm_of_sorted
    ((List.perm_insertionSort _ _).trans (h.trans (List.perm_insertionSort _ _).symm))
    (List.sorted_insertionSort _ _) (List.sorted_insertionSort _ _)

end Fetchless

namespace Fetchless

/-! C1 — freeze. -/

/-- Step 1 of the freeze scenario: a default cache-first client fetches "u"
at t=0, caching `respOK 10`. -/
def freezeScene0 : GetResult Nat Unit :=
  get clientCF5000 "u" none 0 (Except.ok (respOK 10))

/-- Step 2: `freeze("u")` is called while `respOK 10` is cached. -/
def freezeScene1 : FetchlessState Nat :=
  freeze freezeScene0.state "u"

/-- Step 3: `get("u")` again at t=6000 (entry expired), transport now
returning `respOK 99`. -/
def freezeScene2 : GetResult Nat Unit :=
  get freezeScene1 "u" none 6000 (Except.ok (respOK 99))

/-- C1: the claim states that after `freeze(u)` every `get(u)` returns the
frozen snapshot as a hit with zero transport calls until `unfreeze(u)`. The
code violates this: `freeze` stores the snapshot into `freezeCache`, but
`get`'s frozen check consults `frozenUrls` — which no method ever populates —
and reads the ordinary Entry Store, never `freezeCache`. Concretely: after
caching `respOK 10` and freezing "u", a `get("u")` at t=6000 makes a transport
call and returns the fresh `respOK 99`, not the frozen `respOK 10`. -/
theorem freeze_has_no_effect_on_get :
    storeGet freezeScene1.freezeCache "u" = some ⟨respOK 10, 0, "u"⟩ ∧
    freezeScene1.frozenUrls = [] ∧
    freezeScene2.result = Except.ok (respOK 99) ∧
    freezeScene2.result ≠ Except.ok (respOK 10) ∧
    freezeScene2.transportCalls = 1 := by
  decide

/-! C2 — network-first failure fallback. -/

/-- C2 counterexample: the claim states that on network-first failure a cached
entry (if any) is returned as a hit and Auto-Fix is attempted only when no
cached entry exists. In the code the catch block tries Auto-Fix first: with
`respOK 1` cached under "k" and a substitution function returning 42, the call
resolves with the substituted response, not the cached one, and no hit is
counted. -/
theorem networkFirst_autoFix_tried_before_cache_cex :
    storeGet cachedK1.cache "k" = some ⟨respOK 1, 0, "k"⟩ ∧
    (networkFirstStrategy cachedK1 "k" "u" 0 (Except.error ()) (some fix42)).result =
      Except.ok ⟨42, 200, "OK (Auto-Fixed)"⟩ ∧
    (networkFirstStrategy cachedK1 "k" "u" 0 (Except.error ()) (some fix42)).result ≠
      Except.ok (respOK 1) ∧
    (networkFirstStrategy cachedK1 "k" "u" 0 (Except.error ()) (some fix42)).state.hits =
      cachedK1.hits := by
  decide

/-- C2 (amended): under network-first, when the network fetch fails, Auto-Fix
is attempted first when configured; if it produces no substitute, any cached
entry (even expired) is returned and counted as a hit; only with no substitute
and no cached entry does the miss counter increment and the original error
propagate. Exactly one transport call is made in every case. -/
theorem networkFirst_failure_fallback_order
    (s : FetchlessState α) (cacheKey url : String) (now : Nat)
    (e : E) (autoFix : Option (AutoFixFunction α E)) :
    (networkFirstStrategy s cacheKey url now (Except.error e) autoFix).transportCalls = 1 ∧
    (∀ fixedResponse,
      autoFix.bind (fun f => tryAutoFix s e url f) = some fixedResponse →
        (networkFirstStrategy s cacheKey url now (Except.error e) autoFix).result =
          Except.ok fixedResponse ∧
        (networkFirstStrategy s cacheKey url now (Except.error e) autoFix).state = s) ∧
    (autoFix.bind (fun f => tryAutoFix s e url f) = none →
      (∀ entry, storeGet s.cache cacheKey = some entry →
        (networkFirstStrategy s cacheKey url now (Except.error e) autoFix).result =
          Except.ok entry.response ∧
        (networkFirstStrategy s cacheKey url now (Except.error e) autoFix).state =
          { s with hits := s.hits + 1 }) ∧
      (storeGet s.cache cacheKey = none →
        (networkFirstStrategy s cacheKey url now (Except.error e) autoFix).result =
          Except.error e ∧
        (networkFirstStrategy s cacheKey url now (Except.error e) autoFix).state =
          { s with misses := s.misses + 1 })) := by
  refine ⟨?_, ?_, ?_⟩
  · simp only [networkFirstStrategy]
    cases h : autoFix.bind (fun f => tryAutoFix s e url f) with
    | some fr => rfl
    | none => cases h2 : storeGet s.cache cacheKey <;> rfl
  · intro fr h
    simp [networkFirstStrategy, h]
  · intro h
    constructor
    · intro entry hent
      simp [networkFirstStrategy, h, hent]
    · intro hent
      simp [networkFirstStrategy, h, hent]

/-- C2 witness: with `respOK 1` cached under "k" and no substitution function,
a failing network-first fetch falls back to the cached entry. -/
theorem networkFirst_failure_fallback_order_witness :
    (networkFirstStrategy cachedK1 "k" "u" 0 (Except.error ()) none).result =
      Except.ok (respOK 1) :=
  (((networkFirst_failure_fallback_order cachedK1 "k" "u" 0 () none).2.2 rfl).1
    ⟨respOK 1, 0, "k"⟩ (by decide)).1

/-! C3 — stale-while-revalidate. -/

/-- C3: under stale-while-revalidate, a get for a key whose cached entry has
expired returns the stale value immediately as a hit with zero foreground
transport calls and spawns exactly one background refresh (a single transport
call); a failing background refresh changes nothing and surfaces no error; a
successful one stores the fresh response, so a subsequent get returns it. -/
theorem swr_expired_returns_stale_and_refreshes
    (s : FetchlessState α) (cacheKey url : String) (now : Nat)
    (tr : Except E (Response α)) (autoFix : Option (AutoFixFunction α E))
    (entry : CacheEntry α)
    (hc : storeGet s.cache cacheKey = some entry)
    (hexp : isExpired s now entry = true) :
    (staleWhileRevalidateStrategy s cacheKey url now tr autoFix).result =
      Except.ok entry.response ∧
    (staleWhileRevalidateStrategy s cacheKey url now tr autoFix).state =
      { s with hits := s.hits + 1 } ∧
    (staleWhileRevalidateStrategy s cacheKey url now tr autoFix).transportCalls = 0 ∧
    (staleWhileRevalidateStrategy s cacheKey url now tr autoFix).bgTask = some (cacheKey, url) ∧
    (∀ (e : E) (now2 : Nat),
      refreshCache { s with hits := s.hits + 1 } cacheKey url now2
        (Except.error e : Except E (Response α)) = ({ s with hits := s.hits + 1 }, 1)) ∧
    (∀ (resp : Response α) (now2 : Nat),
      (refreshCache { s with hits := s.hits + 1 } cacheKey url now2
        (Except.ok resp : Except E (Response α))).2 = 1 ∧
      ∀ (now3 : Nat) (tr3 : Except E (Response α)) (af3 : Option (AutoFixFunction α E)),
        (staleWhileRevalidateStrategy
          (refreshCache { s with hits := s.hits + 1 } cacheKey url now2
            (Except.ok resp : Except E (Response α))).1
          cacheKey url now3 tr3 af3).result = Except.ok resp) := by
  refine ⟨?_, ?_, ?_, ?_, ?_, ?_⟩
  · simp [staleWhileRevalidateStrategy, hc]
  · simp [staleWhileRevalidateStrategy, hc]
  · simp [staleWhileRevalidateStrategy, hc]
  · simp [staleWhileRevalidateStrategy, hc, hexp]
  · intro e now2; rfl
  · intro resp now2
    constructor
    · rfl
    · intro now3 tr3 af3
      simp [refreshCache, staleWhileRevalidateStrategy, recordSuccess_cache, storeGet_storeSet]

/-- C3 witness: at t=6000 the entry stored at t=0 with maxAge 5000 is stale;
the read still returns it. -/
theorem swr_expired_returns_stale_and_refreshes_witness :
    (staleWhileRevalidateStrategy swrClientK1 "k" "u" 6000
      (Except.error () : Except Unit (Response Nat)) none).result =
      Except.ok (respOK 1) :=
  (swr_expired_returns_stale_and_refreshes swrClientK1 "k" "u" 6000
    (Except.error ()) none ⟨respOK 1, 0, "k"⟩ (by decide) (by decide)).1

end Fetchless

namespace Fetchless

/-! C4 — time travel disabled. -/

/-- C4 counterexample: the claim states that a `get` with an `at` timestamp on
a client with time travel disabled fails with `NoHistoryError` and performs no
network fetch. On a default client (time travel disabled), a `get` carrying
`at` instead proceeds with normal strategy handling: it makes a transport call
and resolves with the transport response. -/
theorem timeTravel_disabled_at_fallthrough_cex :
    (get (mkFetchless CacheConfig.empty) "u" (some atCfg1000) 0
      (Except.ok (respOK 7))).result = Except.ok (respOK 7) ∧
    (get (mkFetchless CacheConfig.empty) "u" (some atCfg1000) 0
      (Except.ok (respOK 7))).transportCalls = 1 := by
  decide

/-- C4 (amended): when time travel is disabled (and no URL is frozen, which is
always the case since `frozenUrls` is never populated), a `get` carrying an
`at` timestamp behaves exactly like the same `get` without `at`: the option is
silently ignored and normal strategy handling runs. `NoHistoryError` is
raised only on the enabled path with no snapshots. -/
theorem timeTravel_disabled_at_ignored
    (s : FetchlessState α) (url : String) (cfg : GetConfig α E) (now : Nat)
    (tr : Except E (Response α))
    (hf : s.frozenUrls = []) (htt : s.enableTimeTravel = false) :
    get s url (some cfg) now tr = get s url (some { cfg with atTime := none }) now tr := by
  obtain ⟨st, af, at?, ps, au⟩ := cfg
  cases at? with
  | none => rfl
  | some parsedAt =>
    simp [get, getCore, hf, htt, handleRequest, generateCacheKey]

/-- C4 witness: on a default client, a time-travel read at timestamp 1000 is
the same call as the plain read. -/
theorem timeTravel_disabled_at_ignored_witness :
    get (mkFetchless CacheConfig.empty) "u" (some atCfg1000) 0
      (Except.ok (respOK 7)) =
    get (mkFetchless CacheConfig.empty) "u" (some { atCfg1000 with atTime := none }) 0
      (Except.ok (respOK 7)) :=
  timeTravel_disabled_at_ignored (mkFetchless CacheConfig.empty) "u" atCfg1000 0
    (Except.ok (respOK 7)) rfl rfl

/-! C5 — clearCache. -/

/-- C5 counterexample: the claim states that `clearCache()` resets the hit and
miss counters to zero. On a client with one recorded hit and one recorded
miss, `clearCache()` leaves both counters at 1 (only the Entry Store is
emptied), as `getStats()` then reports. -/
theorem clearCache_does_not_reset_counters_cex :
    (clearCache countersOneOne).hits = 1 ∧
    (clearCache countersOneOne).misses = 1 ∧
    (getStats (clearCache countersOneOne)).hits = 1 ∧
    (getStats (clearCache countersOneOne)).size = 0 := by
  decide

/-- C5 (amended): `clearCache()` empties the Entry Store (so `getStats` then
reports size 0) and leaves everything else unchanged: the hit and miss
counters keep their values, and the History Store, the freeze overlay and the
frozen-URL set are untouched. -/
theorem clearCache_frame (s : FetchlessState α) :
    (clearCache s).cache = [] ∧
    (clearCache s).hits = s.hits ∧
    (clearCache s).misses = s.misses ∧
    (clearCache s).historyCache = s.historyCache ∧
    (clearCache s).freezeCache = s.freezeCache ∧
    (clearCache s).frozenUrls = s.frozenUrls ∧
    (getStats (clearCache s)).size = 0 ∧
    (getStats (clearCache s)).hits = s.hits ∧
    (getStats (clearCache s)).misses = s.misses := by
  refine ⟨rfl, rfl, rfl, rfl, rfl, rfl, rfl, rfl, rfl⟩

/-! C6 — cache-first example scenario. -/

/-- C6: with `maxAge = 5000` and strategy cache-first, `get(U)` at t=0 (miss,
transport called), t=1000 (hit, no transport call) and t=6000 (miss, transport
called again) against a succeeding transport yields final stats
hits=1, misses=2, ratio=1/3 (and one stored entry). -/
theorem cacheFirst_example_scenario (u : String) (r0 r1 r2 : Response Nat) :
    let g0 := get clientCF5000 u (none : Option (GetConfig Nat Unit)) 0 (Except.ok r0)
    let g1 := get g0.state u (none : Option (GetConfig Nat Unit)) 1000 (Except.ok r1)
    let g2 := get g1.state u (none : Option (GetConfig Nat Unit)) 6000 (Except.ok r2)
    g0.transportCalls = 1 ∧ g0.result = Except.ok r0 ∧
    g1.transportCalls = 0 ∧ g1.result = Except.ok r0 ∧
    g2.transportCalls = 1 ∧ g2.result = Except.ok r2 ∧
    getStats g2.state = ⟨1, 2, 1/3, 1⟩ := by
  simp only [get, getCore, handleRequest, generateCacheKey, logIntelligence,
    clientCF5000, mkFetchless, CacheConfig.empty, orDefaultNat,
    cacheFirstStrategy, networkFetchAndStore, recordSuccess, cacheResponse, storeInHistory,
    storeGet, storeSet, isExpired, getStats,
    StratResult.toGetResult, respSet, histSet, histGet,
    List.contains, List.find?, List.filter, List.elem, beq_self_eq_true, bne_self_eq_false,
    Option.getD, Option.bind, Option.map, Except.mapError]
  norm_num

end Fetchless

namespace Fetchless

/-! C7 — deduplication. -/

/-- C7: with the dedup layer enabled, `m ≥ 1` callers arriving for the same
dedupe key while no operation for it is pending produce exactly one underlying
request execution; every caller is bound to that same single operation (hence
receives its one outcome, success or failure); and completion — success or
failure alike — removes the pending registration, so a later call finds no
stale pending entry and can retry. -/
theorem dedup_single_transport_call (s : DedupState) (key : String) (m : Nat)
    (hnp : List.lookup key s.pending = none) (hm : 1 ≤ m) :
    (dedupArriveMany s key m).1 = List.replicate m s.nextOp ∧
    (dedupArriveMany s key m).2.transportCalls = s.transportCalls + 1 ∧
    (dedupArriveMany s key m).2.pending = (key, s.nextOp) :: s.pending ∧
    (∀ (outcome : Except Unit (Response Nat)),
      List.lookup key
        (dedupComplete (dedupArriveMany s key m).2 key outcome).pending = none) := by
  obtain ⟨n, rfl⟩ : ∃ n, m = n + 1 := ⟨m - 1, by omega⟩
  have h1 : dedupArrive s key =
      (s.nextOp, { pending := (key, s.nextOp) :: s.pending, nextOp := s.nextOp + 1,
                   transportCalls := s.transportCalls + 1 }) := by
    simp [dedupArrive, hnp]
  have h2 : List.lookup key ((key, s.nextOp) :: s.pending) = some s.nextOp := by
    simp [List.lookup]
  have h3 := dedupArriveMany_of_pending key s.nextOp n
    { pending := (key, s.nextOp) :: s.pending, nextOp := s.nextOp + 1,
      transportCalls := s.transportCalls + 1 } h2
  have hall : dedupArriveMany s key (n + 1) =
      (s.nextOp :: List.replicate n s.nextOp,
        { pending := (key, s.nextOp) :: s.pending, nextOp := s.nextOp + 1,
          transportCalls := s.transportCalls + 1 }) := by
    simp [dedupArriveMany, h1, h3]
  refine ⟨?_, ?_, ?_, ?_⟩
  · rw [hall]; rfl
  · rw [hall]
  · rw [hall]
  · intro outcome
    rw [hall]
    simp only [dedupComplete]
    exact lookup_filter_self key _

/-- C7 witness: three concurrent callers for the dedupe key of url "u" on a
fresh dedup state cause exactly one underlying execution. -/
theorem dedup_single_transport_call_witness :
    (dedupArriveMany ⟨[], 0, 0⟩ (generateDedupeCacheKey "u" none) 3).2.transportCalls = 1 :=
  (dedup_single_transport_call ⟨[], 0, 0⟩ (generateDedupeCacheKey "u" none) 3
    rfl (by decide)).2.1

/-! C8 — cache-key derivation. -/

/-- C8: cache-key derivation is order-independent in the query parameters —
two parameter maps equal as key-value sets (permutations with distinct keys)
yield the same key, because keys are serialized sorted — and two
otherwise-identical requests bearing different (nonempty) Authorization
headers yield different keys. (Determinism is definitional: `generateCacheKey`
is a pure function.) -/
theorem generateCacheKey_order_independent_and_auth_distinct :
    (∀ (url : String) (cfg : GetConfig Nat Unit) (ps₁ ps₂ : List (String × String)),
      ps₁.Perm ps₂ → (ps₁.map Prod.fst).Nodup →
      generateCacheKey url (some { cfg with params := some ps₁ }) =
        generateCacheKey url (some { cfg with params := some ps₂ })) ∧
    (∀ (url : String) (cfg : GetConfig Nat Unit) (a₁ a₂ : String),
      a₁ ≠ "" → a₂ ≠ "" → a₁ ≠ a₂ →
      generateCacheKey url (some { cfg with authorization := some a₁ }) ≠
        generateCacheKey url (some { cfg with authorization := some a₂ })) := by
  constructor
  · intro url cfg ps₁ ps₂ hperm hnd
    obtain ⟨st, af, at?, ps, au⟩ := cfg
    simp only [generateCacheKey]
    have hkeys : List.insertionSort (fun a b => a ≤ b) (ps₁.map Prod.fst)
        = List.insertionSort (fun a b => a ≤ b) (ps₂.map Prod.fst) :=
      insertionSort_eq_of_perm (hperm.map Prod.fst)
    have hfun : (fun k => k ++ "=" ++ ((List.lookup k ps₁).getD "")) =
        (fun k => k ++ "=" ++ ((List.lookup k ps₂).getD "")) :=
      funext (fun k => by rw [lookup_eq_of_perm k hperm hnd])
    rw [hkeys, hfun]
  · intro url cfg a₁ a₂ ha₁ ha₂ hne
    obtain ⟨st, af, at?, ps, au⟩ := cfg
    simp only [generateCacheKey, ha₁, ha₂, if_false, ite_false]
    intro heq
    exact hne (string_append_cancel_left heq)

/-- C8 witness: `{b:2, a:1}` and `{a:1, b:2}` derive the same key, while two
different bearer tokens derive different keys. -/
theorem generateCacheKey_order_independent_and_auth_distinct_witness :
    generateCacheKey "https://api/x"
        (some (⟨none, none, none, some [("b", "2"), ("a", "1")], none⟩ : GetConfig Nat Unit)) =
      generateCacheKey "https://api/x"
        (some (⟨none, none, none, some [("a", "1"), ("b", "2")], none⟩ : GetConfig Nat Unit)) ∧
    generateCacheKey "https://api/x"
        (some (⟨none, none, none, none, some "Bearer t1"⟩ : GetConfig Nat Unit)) ≠
      generateCacheKey "https://api/x"
        (some (⟨none, none, none, none, some "Bearer t2"⟩ : GetConfig Nat Unit)) :=
  And.intro
    (generateCacheKey_order_independent_and_auth_distinct.1 "https://api/x"
      ⟨none, none, none, none, none⟩ [("b", "2"), ("a", "1")] [("a", "1"), ("b", "2")]
      (by decide) (by decide))
    (generateCacheKey_order_independent_and_auth_distinct.2 "https://api/x"
      ⟨none, none, none, none, none⟩ "Bearer t1" "Bearer t2"
      (by decide) (by decide) (by decide))

/-! C9 — Auto-Fix substitution. -/

/-- C9: on a cache-first get whose cache lookup yields nothing fresh and whose
network fetch fails, a supplied substitution function returning a non-null
value makes the call resolve with a success-status response (`status` 200,
`statusText` "OK (Auto-Fixed)") whose data is exactly the returned value,
while the Entry Store and the History Store are left unmodified; a
substitution function returning null, or itself throwing, lets the original
error propagate. -/
theorem cacheFirst_autoFix_substitution
    (s : FetchlessState α) (cacheKey url : String) (now : Nat)
    (e : E) (fn : AutoFixFunction α E)
    (hmiss : ∀ entry, storeGet s.cache cacheKey = some entry → isExpired s now entry = true) :
    (∀ d, fn e (mkAutoFixContext s url) = Except.ok (some d) →
      (cacheFirstStrategy s cacheKey url now (Except.error e) (some fn)).result =
        Except.ok { data := d, status := 200, statusText := "OK (Auto-Fixed)" } ∧
      (cacheFirstStrategy s cacheKey url now (Except.error e) (some fn)).state =
        { s with misses := s.misses + 1 } ∧
      (cacheFirstStrategy s cacheKey url now (Except.error e) (some fn)).state.cache =
        s.cache ∧
      (cacheFirstStrategy s cacheKey url now (Except.error e) (some fn)).state.historyCache =
        s.historyCache) ∧
    (fn e (mkAutoFixContext s url) = Except.ok none →
      (cacheFirstStrategy s cacheKey url now (Except.error e) (some fn)).result =
        Except.error e) ∧
    (∀ u, fn e (mkAutoFixContext s url) = Except.error u →
      (cacheFirstStrategy s cacheKey url now (Except.error e) (some fn)).result =
        Except.error e) := by
  have hstep : cacheFirstStrategy s cacheKey url now (Except.error e) (some fn) =
      networkFetchAndStore { s with misses := s.misses + 1 } cacheKey url now
        (Except.error e) (some fn) := by
    simp only [cacheFirstStrategy]
    cases h : storeGet s.cache cacheKey with
    | none => rfl
    | some entry => simp [hmiss entry h]
  have hctx : mkAutoFixContext { s with misses := s.misses + 1 } url =
      mkAutoFixContext s url := rfl
  refine ⟨?_, ?_, ?_⟩
  · intro d hfn
    simp [hstep, networkFetchAndStore, tryAutoFix, hctx, hfn]
  · intro hfn
    simp [hstep, networkFetchAndStore, tryAutoFix, hctx, hfn]
  · intro u hfn
    simp [hstep, networkFetchAndStore, tryAutoFix, hctx, hfn]

/-- C9 witness: on a fresh default client with an empty cache, a failing get
with `fix42` resolves with the substituted response and writes nothing to the
Entry Store. -/
theorem cacheFirst_autoFix_substitution_witness :
    (cacheFirstStrategy (mkFetchless CacheConfig.empty : FetchlessState Nat)
      "k" "u" 0 (Except.error ()) (some fix42)).result =
      Except.ok ⟨42, 200, "OK (Auto-Fixed)"⟩ ∧
    (cacheFirstStrategy (mkFetchless CacheConfig.empty : FetchlessState Nat)
      "k" "u" 0 (Except.error ()) (some fix42)).state.cache = [] :=
  And.intro
    ((cacheFirst_autoFix_substitution (mkFetchless CacheConfig.empty) "k" "u" 0 () fix42
      (fun _ h => nomatch h)).1 42 rfl).1
    ((cacheFirst_autoFix_substitution (mkFetchless CacheConfig.empty) "k" "u" 0 () fix42
      (fun _ h => nomatch h)).1 42 rfl).2.2.1

/-! C10 — singleton createClient. -/

/-- C10: `Fetchless.createClient` is a process-wide singleton: the first call
constructs the instance from its configuration and registers it; any later
call returns that identical instance and leaves the registration unchanged,
its own configuration argument having no effect. In particular, after
src/index.ts evaluates `createClient()` at module load, every later
`createClient(c)` returns exactly the default client that the module-level
helpers (get/post/put/del/clearCache/getStats) delegate to. -/
theorem createClient_singleton (c₁ c₂ : CacheConfig) :
    (createClient (α := Nat) none c₁).1 = mkFetchless c₁ ∧
    createClient (createClient (α := Nat) none c₁).2 c₂ =
      (mkFetchless c₁, some (mkFetchless c₁)) ∧
    (createClient (indexModuleInit Nat).2 c₂).1 = defaultClient Nat := by
  refine ⟨rfl, rfl, rfl⟩

end Fetchless
